import Mathlib

/-!
Shallow embedding of the partner-cloud access-granting tool.

The Lean definitions below are direct translations of the Python source in
`src/partner_cloud/`:

* `partner_cloud/objects.py` — the `User` value object, its pydantic field
  equality and the name-based `Object.__hash__`, together with the semantics
  of Python `set` membership over such objects;
* `partner_cloud/activities/launchpad.py` — `LaunchpadGroupChangeResult`,
  `_check_memberships` and `add_users_to_group`;
* `partner_cloud/activities/ldap.py` — `get_identity_attribute`,
  `get_filter_parameter`, `is_fully_resolved` and `resolve_users`;
* `partner_cloud/activities/jira.py` — issue data, `convert_user`,
  `get_pending_prerequisite_issues`, `AccessResult` and
  `get_access_for_current_sprint`;
* `partner_cloud/workflows/grant_access.py` — `PartnerCloudGrantAccessWorkflow.run`.

External collaborators (the LDAP server, the Jira server, the Launchpad API,
the Temporal substrate, the oslo configuration) are modelled as explicit
oracle inputs: the embedding takes the data those services would return as
arguments.  Fallible Python code (uncaught exceptions) is modelled with
`Except String`.
-/

/-! ## objects.py — value objects and Python set semantics -/

/-- The `User` pydantic model from `partner_cloud/objects.py`: `name` is a
required string, `email` and `launchpad_id` are optional. -/
structure User where
  name : String
  email : Option String := none
  launchpad_id : Option String := none
deriving DecidableEq, Repr

/-- Pydantic `BaseModel.__eq__` for `User`: two model instances of the same
class compare equal exactly when all their field values compare equal. -/
def userEq (a b : User) : Bool :=
  a.name == b.name && a.email == b.email && a.launchpad_id == b.launchpad_id

/-- The hash key used by `Object.__hash__` in `objects.py`: the object hashes
as `hash(self.name)`, i.e. the hash depends on the `name` field alone.  We
model the key fed to `hash` (the name string) rather than the integer hash;
names that are equal always land in the same hash bucket. -/
def userHashKey (u : User) : String := u.name

/-- Membership test of a Python `set` of `User`s, with the set represented as
the list of its elements in insertion order: a candidate is contained when
some element has the same hash (bucket, per `Object.__hash__`) and compares
equal under pydantic `__eq__`. -/
def pySetContains (s : List User) (u : User) : Bool :=
  s.any fun v => userHashKey v == userHashKey u && userEq v u

/-- `set.add`: a new element is appended unless an equal element is present. -/
def pySetAdd (s : List User) (u : User) : List User :=
  if pySetContains s u then s else s ++ [u]

/-- `set.update(iterable)`: add each element in turn. -/
def pySetUpdate (s : List User) (new : List User) : List User :=
  new.foldl pySetAdd s

/-- `set(iterable)`: build a set by adding each element of the iterable. -/
def pySetOfList (l : List User) : List User :=
  pySetUpdate [] l

/-! ## activities/launchpad.py -/

/-- One entry of `lp_user.memberships_details`: the team it concerns (modelled
by the team name) and the membership status string. -/
structure MembershipDetail where
  team : String
  status : String
deriving DecidableEq, Repr

/-- A Launchpad person record as consumed by `add_users_to_group`: its
`is_valid` flag and its membership details. -/
structure LPUser where
  is_valid : Bool
  memberships_details : List MembershipDetail
deriving DecidableEq, Repr

/-- The Launchpad service as an oracle: which team names resolve via
`launchpad.people[...]` (a missing name raises `KeyError`), the person record
for a launchpad id, and whether `addMember` raises `KeyError` for a given
(group, launchpad id) pair. -/
structure LaunchpadEnv where
  groups : List String
  people : String → Option LPUser
  addMember_raises : String → String → Bool

/-- `LaunchpadGroupChangeResult` from `activities/launchpad.py`.  The Python
`success` and `failed` fields are typed `List[Union[Group, User]]`; only
`User` values are ever appended (`add_success` / `add_failure`), so the model
narrows them to `User`. -/
structure LaunchpadGroupChangeResult where
  group : String
  success : List User := []
  failed : List (User × String) := []
deriving DecidableEq, Repr

/-- `LaunchpadGroupChangeResult.has_failures`: the source returns
`len(self.failed) == 0`. -/
def LaunchpadGroupChangeResult.has_failures (r : LaunchpadGroupChangeResult) : Bool :=
  r.failed.length == 0

/-- `LaunchpadGroupChangeResult.add_success`. -/
def LaunchpadGroupChangeResult.add_success (r : LaunchpadGroupChangeResult) (user : User) :
    LaunchpadGroupChangeResult :=
  { r with success := r.success ++ [user] }

/-- `LaunchpadGroupChangeResult.add_failure`. -/
def LaunchpadGroupChangeResult.add_failure (r : LaunchpadGroupChangeResult) (user : User)
    (reason : String) : LaunchpadGroupChangeResult :=
  { r with failed := r.failed ++ [(user, reason)] }

/-- `_check_memberships` from `activities/launchpad.py`, translated with the
two accumulator booleans threaded through the loop; `break` is the early
return and `continue` moves to the next membership entry. -/
def check_memberships (canonical_group target_group : String) :
    List MembershipDetail → Bool → Bool → Bool × Bool
  | [], is_employee, already_in_group => (is_employee, already_in_group)
  | m :: rest, is_employee, already_in_group =>
    if m.team == canonical_group then
      if already_in_group then (true, already_in_group)
      else check_memberships canonical_group target_group rest true already_in_group
    else if m.team == target_group && (m.status == "Approved" || m.status == "Administrator") then
      if is_employee then (is_employee, true)
      else check_memberships canonical_group target_group rest is_employee true
    else check_memberships canonical_group target_group rest is_employee already_in_group

/-- Python truthiness of `user.launchpad_id` in `if not user.launchpad_id:`
— both `None` and the empty string are falsy. -/
def launchpad_id_falsy : Option String → Bool
  | none => true
  | some s => s.isEmpty

/-- The decision a single iteration of the `add_users_to_group` loop reaches
for one user. -/
inductive UserOutcome where
  | success
  | failure (reason : String)
deriving DecidableEq, Repr

/-- The decision tree of one iteration of the `for user in users:` loop in
`add_users_to_group`, in source order: missing/empty launchpad id, person
lookup (`KeyError` is caught and recorded), validity check, the two
membership facts, idempotent success for an existing member, and finally
`addMember` whose `KeyError` is caught by the same handler.  Which branch is
taken depends only on the environment, the group and the user, never on the
accumulated result. -/
def classify_user (env : LaunchpadEnv) (group : String) (user : User) : UserOutcome :=
  if launchpad_id_falsy user.launchpad_id then .failure "no launchpad id"
  else
    let lpid := user.launchpad_id.getD ""
    match env.people lpid with
    | none => .failure "User not in launchpad"
    | some lp_user =>
      if !lp_user.is_valid then .failure "invalid launchpad user"
      else
        let facts := check_memberships "canonical" group lp_user.memberships_details false false
        if !facts.1 then .failure "not a Canonical employee"
        else if facts.2 then .success
        else if env.addMember_raises group lpid then .failure "User not in launchpad"
        else .success

/-- One iteration of the `add_users_to_group` loop: record the decision for
this user on the accumulated `LaunchpadGroupChangeResult`. -/
def process_user (env : LaunchpadEnv) (group : String) (r : LaunchpadGroupChangeResult)
    (user : User) : LaunchpadGroupChangeResult :=
  match classify_user env group user with
  | .success => r.add_success user
  | .failure reason => r.add_failure user reason

/-- `add_users_to_group` from `activities/launchpad.py`.  The two
`launchpad.people[...]` lookups before the loop (`group` and `"canonical"`)
are outside the `try` block, so a `KeyError` there aborts the whole call;
inside the loop every failure is recorded on the result and iteration
continues with the next user. -/
def add_users_to_group (env : LaunchpadEnv) (group : String) (users : List User) :
    Except String LaunchpadGroupChangeResult :=
  if !env.groups.contains group then .error ("KeyError: " ++ group)
  else if !env.groups.contains "canonical" then .error "KeyError: canonical"
  else .ok (users.foldl (process_user env group) { group := group })

/-! ## activities/ldap.py -/

/-- The `ATTR_CN` constant from `activities/ldap.py`. -/
def ATTR_CN : String := "cn"

/-- The `ATTR_LAUNCHPAD_ID` constant from `activities/ldap.py`. -/
def ATTR_LAUNCHPAD_ID : String := "launchpadId"

/-- The `ATTR_MAIL` constant from `activities/ldap.py`. -/
def ATTR_MAIL : String := "mail"

/-- An LDAP search result entry with the three requested attributes; each
attribute `.value` may be absent (`None`). -/
structure LdapEntry where
  cn : Option String
  launchpadId : Option String
  mail : Option String
deriving DecidableEq, Repr

/-- `get_identity_attribute` from `activities/ldap.py`: prefer `mail`, then
`launchpadId`, then `cn`. -/
def get_identity_attribute (user : User) : String :=
  if user.email.isSome then "mail"
  else if user.launchpad_id.isSome then "launchpadId"
  else "cn"

/-- `get_filter_parameter` from `activities/ldap.py`: one filter clause per
user, choosing the most specific available attribute in the priority order
email, launchpad id, name. -/
def get_filter_parameter (user : User) : String :=
  match user.email with
  | some e => s!"(mail={e})"
  | none =>
    match user.launchpad_id with
    | some l => s!"(launchpadId={l})"
    | none => s!"(cn={user.name})"

/-- `is_fully_resolved` from `activities/ldap.py`.  The source also checks
`user.name is not None`; `name` is a required `str` field of the pydantic
model, so that conjunct is always true and the model omits it. -/
def is_fully_resolved (user : User) : Bool :=
  user.email.isSome && user.launchpad_id.isSome

/-- The combined search filter built in `resolve_users`: the OR of all
per-user filter clauses conjoined with `(objectclass=person)`, with the
whitespace produced by `textwrap.dedent(...).strip()` on the f-string. -/
def search_filter (users : List User) : String :=
  "(&\n    (|\n        " ++ String.join (users.map get_filter_parameter)
    ++ "\n    )\n    (objectclass=person)\n)"

/-- The message of the exception raised when the combined search returns no
results.  The Python message also interpolates the configured
`CONF.ldap.search_base`; the configuration value is external to this
embedding and elided, and quoting is kept plain. -/
def no_results_message (users : List User) : String :=
  "No search results matched query with search filter = " ++ search_filter users

/-- The message of the `AttributeError` raised when a per-user lookup in the
result maps produced `None` and the code dereferences `result.cn`. -/
def attribute_error_cn : String :=
  "AttributeError: NoneType object has no attribute cn"

/-- An association map from attribute values to LDAP entries, modelling one of
the inner dicts of `results_map` (a Python dict keyed by attribute `.value`,
which may be `None`). -/
abbrev AttrMap := List (Option String × LdapEntry)

/-- Python dict assignment `d[k] = v`: overwrite the existing binding in
place, otherwise append a new binding. -/
def attrMapInsert : AttrMap → Option String → LdapEntry → AttrMap
  | [], k, v => [(k, v)]
  | (k0, v0) :: rest, k, v =>
    if k0 = k then (k0, v) :: rest else (k0, v0) :: attrMapInsert rest k v

/-- Python `dict.get(k)`: the bound value, or `None` when the key is absent. -/
def attrMapGet (m : AttrMap) (k : Option String) : Option LdapEntry :=
  (m.find? fun p => p.1 = k).map Prod.snd

/-- The `results_map` built in `resolve_users`: three indexes over the result
entries keyed by `cn`, `mail` and `launchpadId` attribute values; a later
entry with a duplicate key overwrites the earlier one. -/
structure ResultsMap where
  cnMap : AttrMap
  mailMap : AttrMap
  lpMap : AttrMap
deriving Repr

/-- Construction of `results_map` from the search result entries, in result
order. -/
def build_results_map (entries : List LdapEntry) : ResultsMap :=
  entries.foldl
    (fun m e =>
      { cnMap := attrMapInsert m.cnMap e.cn e
        mailMap := attrMapInsert m.mailMap e.mail e
        lpMap := attrMapInsert m.lpMap e.launchpadId e })
    { cnMap := [], mailMap := [], lpMap := [] }

/-- Python `==` between a `bool` and a `str`: values of different types never
compare equal, so the comparison is `False` regardless of the operands. -/
def pyEqBoolStr (_b : Bool) (_s : String) : Bool := false

/-- The per-user lookup of `resolve_users` (ldap.py lines 148-153), translated
exactly as written.  The walrus expression
`attr := get_identity_attribute(user) == ATTR_MAIL` binds `attr` to the
Boolean result of the comparison, so the `elif attr == ATTR_LAUNCHPAD_ID`
branch compares a Boolean against a string and is never taken: a user without
an email address is always looked up by `cn`. -/
def lookup_entry (rm : ResultsMap) (user : User) : Option LdapEntry :=
  let attr : Bool := get_identity_attribute user == ATTR_MAIL
  if attr then attrMapGet rm.mailMap user.email
  else if pyEqBoolStr attr ATTR_LAUNCHPAD_ID then attrMapGet rm.lpMap user.launchpad_id
  else attrMapGet rm.cnMap (some user.name)

/-- Construction of the replacement `User` from a matched directory entry:
`User(name=result.cn.value, email=result.mail.value,
launchpad_id=result.launchpadId.value)`.  `name` is a required `str` field,
so a `None` `cn` value makes pydantic raise a validation error. -/
def user_from_entry (e : LdapEntry) : Except String User :=
  match e.cn with
  | some n => .ok { name := n, email := e.mail, launchpad_id := e.launchpadId }
  | none => .error "ValidationError: none is not an allowed value for name"

/-- The `for user in users:` loop at the end of `resolve_users`: look each
user up, and add a `User` built entirely from the matched entry to the
accumulated result set.  A missed lookup gives `result = None` and the
subsequent `result.cn` dereference raises `AttributeError`, which no handler
catches (`except LDAPException` does not match it). -/
def resolve_users_loop (rm : ResultsMap) : List User → List User → Except String (List User)
  | acc, [] => .ok acc
  | acc, user :: rest =>
    match lookup_entry rm user with
    | none => .error attribute_error_cn
    | some entry =>
      match user_from_entry entry with
      | .error e => .error e
      | .ok nu => resolve_users_loop rm (pySetAdd acc nu) rest

/-- The observable outcome of one `resolve_users` activity invocation:
whether an LDAP query was issued, and the returned set or the raised
exception. -/
structure ResolveOutcome where
  queried : Bool
  result : Except String (List User)
deriving Repr

/-- `resolve_users` from `activities/ldap.py`.  `search_results` is the entry
list the LDAP server returns for the one combined query (the server is an
external collaborator); `users` is the input iterable in iteration order.
An empty input returns the empty set; a fully resolved input returns
`set(users)`; otherwise the combined query is issued, zero results raise
the no-results exception, and each user is looked up and replaced. -/
def resolve_users (search_results : List LdapEntry) (users : List User) : ResolveOutcome :=
  if users.isEmpty then { queried := false, result := .ok [] }
  else if users.all is_fully_resolved then { queried := false, result := .ok (pySetOfList users) }
  else
    { queried := true
      result :=
        if search_results.isEmpty then .error (no_results_message users)
        else resolve_users_loop (build_results_map search_results) [] users }

/-! ## activities/jira.py -/

/-- A Jira user value as read from the collaborators field or the assignee:
`displayName` and `emailAddress` attributes. -/
structure JiraUser where
  displayName : String
  emailAddress : Option String := none
deriving DecidableEq, Repr

/-- `convert_user` from `activities/jira.py`:
`User(name=user.displayName, email=user.emailAddress)`. -/
def convert_user (user : JiraUser) : User :=
  { name := user.displayName, email := user.emailAddress }

/-- The message of the `AttributeError` raised when `convert_user` is applied
to `None` (an unassigned ticket): `None.displayName` does not exist. -/
def attribute_error_displayName : String :=
  "AttributeError: NoneType object has no attribute displayName"

/-- One entry of `issue.fields.issuelinks`: the link type name and, when the
link has an `inwardIssue` attribute, the key of the inward (predecessor)
issue. -/
structure IssueLink where
  type_name : String
  inwardIssue : Option String := none
deriving DecidableEq, Repr

/-- A Jira issue as read by the extractor: key, status name, the
integration-layer multi-select (field may be `None`; the element `.value`
strings are kept), the collaborators list (field may be `None`), the
assignee (may be `None`) and the issue links (`hasattr` may be false). -/
structure Issue where
  key : String
  status_name : String
  integration_layers : Option (List String) := none
  collaborators : Option (List JiraUser) := none
  assignee : Option JiraUser := none
  issuelinks : Option (List IssueLink) := none
deriving DecidableEq, Repr

/-- The Jira server as an oracle for `get_issues_by_keys`: the issue a key
resolves to, if any (keys that match nothing simply return no issue). -/
structure JiraEnv where
  issue_by_key : String → Option Issue

/-- `JiraClient.is_issue_completed`: the status name equals `"Done"`. -/
def is_issue_completed (issue : Issue) : Bool :=
  issue.status_name == "Done"

/-- `JiraClient.get_pending_prerequisite_issues` from `activities/jira.py`:
`None` when the issue has no `issuelinks` attribute or no Finish-to-Start
link with an `inwardIssue`; otherwise the keys of the linked prerequisite
issues that resolve and are not completed. -/
def get_pending_prerequisite_issues (env : JiraEnv) (issue : Issue) : Option (List String) :=
  match issue.issuelinks with
  | none => none
  | some links =>
    let prerequisite_issues := links.filterMap fun link =>
      if link.type_name.startsWith "Finish-to-Start" then link.inwardIssue else none
    if prerequisite_issues.isEmpty then none
    else
      some (((prerequisite_issues.filterMap env.issue_by_key).filter
        fun task => !is_issue_completed task).map Issue.key)

/-- Python truthiness of the walrus-bound `pending_issues` in
`if pending_issues := jira.get_pending_prerequisite_issues(issue):` —
both `None` and an empty list are falsy. -/
def pending_truthy : Option (List String) → Bool
  | none => false
  | some l => !l.isEmpty

/-- The resource variants the extractor constructs, as a closed type:
`InfraNode(name, ip_address)` from `resources/infra.py` and
`OpenStackProject(name, cloud, project_id)` from `resources/openstack.py`
(the `project_id` stays at its `None` default here).  Pydantic `__eq__`
compares class and all field values, which matches structural equality of
this inductive; `Object.__hash__` hashes the `name` alone. -/
inductive Resource where
  | infraNode (name : String) (ip_address : String)
  | openStackProject (name : String) (cloud : String) (project_id : Option String)
deriving DecidableEq, Repr

/-- The `name` attribute shared by all `Resource` variants. -/
def Resource.name : Resource → String
  | .infraNode n _ => n
  | .openStackProject n _ _ => n

/-- The `isinstance(resource, InfraNode)` test of the workflow. -/
def Resource.isInfraNode : Resource → Bool
  | .infraNode _ _ => true
  | _ => false

/-- The `isinstance(resource, OpenStackProject)` test of the workflow. -/
def Resource.isOpenStackProject : Resource → Bool
  | .openStackProject _ _ _ => true
  | _ => false

/-- The `resource_map` of the extractor: a Python dict from `Resource` to a
set of `User`s, as an insertion-ordered association list with one entry per
key. -/
abbrev ResourceMap := List (Resource × List User)

/-- The `defaultdict(set)` update `resource_map[r].update(users)`: union the
users into the existing entry, or create the entry. -/
def rmapUpdate : ResourceMap → Resource → List User → ResourceMap
  | [], r, users => [(r, pySetUpdate [] users)]
  | (k, v) :: rest, r, users =>
    if k = r then (k, pySetUpdate v users) :: rest
    else (k, v) :: rmapUpdate rest r users

/-- Plain dict assignment `mapping[r] = users` (used by
`AccessResult.to_map`): overwrite or append. -/
def rmapAssign : ResourceMap → Resource → List User → ResourceMap
  | [], r, users => [(r, users)]
  | (k, v) :: rest, r, users =>
    if k = r then (k, users) :: rest
    else (k, v) :: rmapAssign rest r users

/-- Dict lookup on a `ResourceMap`. -/
def rmapGet (m : ResourceMap) (r : Resource) : Option (List User) :=
  (m.find? fun p => p.1 = r).map Prod.snd

/-- A map keyed by resource name (the `users` dict of `AccessResult`). -/
abbrev NameMap := List (String × List User)

/-- Dict assignment on a `NameMap`. -/
def nameMapAssign : NameMap → String → List User → NameMap
  | [], k, users => [(k, users)]
  | (k0, v) :: rest, k, users =>
    if k0 = k then (k0, users) :: rest
    else (k0, v) :: nameMapAssign rest k users

/-- `dict.get(k, set())` on a `NameMap`. -/
def nameMapGetD (m : NameMap) (k : String) : List User :=
  ((m.find? fun p => p.1 = k).map Prod.snd).getD []

/-- `AccessResult` from `activities/jira.py`: the list of resources and a
dict from resource name to the user set. -/
structure AccessResult where
  resources : List Resource := []
  users : NameMap := []
deriving Repr

/-- `AccessResult.from_map`: collect the resources in map order and key the
user sets by resource name. -/
def AccessResult.from_map (data : ResourceMap) : AccessResult :=
  { resources := data.map Prod.fst
    users := data.foldl (fun um p => nameMapAssign um p.1.name p.2) [] }

/-- `AccessResult.to_map`: rebuild the resource-to-users dict, defaulting a
missing name to the empty set. -/
def AccessResult.to_map (ar : AccessResult) : ResourceMap :=
  ar.resources.foldl (fun m resource => rmapAssign m resource (nameMapGetD ar.users resource.name)) []

/-- The collaborator-conversion step of `get_access_for_current_sprint`
(jira.py lines 209-212): `jira_users` is the collaborators field (`None`
guarded by `or []`) with the assignee appended unconditionally, and every
element is passed through `convert_user`.  A `None` assignee reaches
`convert_user` and raises `AttributeError` on `None.displayName`. -/
def issue_users (issue : Issue) : Except String (List User) :=
  let jira_users : List (Option JiraUser) :=
    ((issue.collaborators.getD []).map some) ++ [issue.assignee]
  jira_users.mapM fun ju =>
    match ju with
    | some u => .ok (convert_user u)
    | none => .error attribute_error_displayName

/-- The per-integration-layer branch of the extractor loop:
`"Infrastructure"` unions the users into the supplied infra-node entry,
`"Platform"` unions them into a freshly keyed `OpenStackProject` named by the
lowercased issue key, `"Application"` and unknown values are skipped. -/
def process_integration (cloud : String) (infra_node : Resource) (issue : Issue)
    (users : List User) (m : ResourceMap) (integration : String) : ResourceMap :=
  if integration == "Infrastructure" then rmapUpdate m infra_node users
  else if integration == "Platform" then
    rmapUpdate m (Resource.openStackProject issue.key.toLower cloud none) users
  else m

/-- The resource key one integration-layer value updates, if any: the same
branching as `process_integration` (`Infrastructure` targets the supplied
infra node, `Platform` targets the project keyed by the lowercased issue
key, anything else updates nothing). -/
def integration_target (cloud : String) (infra_node : Resource) (issue : Issue)
    (integration : String) : Option Resource :=
  if integration == "Infrastructure" then some infra_node
  else if integration == "Platform" then
    some (Resource.openStackProject issue.key.toLower cloud none)
  else none

/-- All resource keys an issue's integration-layer loop updates, in layer
order. -/
def issue_resources (cloud : String) (infra_node : Resource) (issue : Issue) : List Resource :=
  (issue.integration_layers.getD []).filterMap (integration_target cloud infra_node issue)

/-- Issue `issue` contributes user `u` to resource key `r` in a run: the
issue is actionable (not completed, no pending prerequisite), its
collaborator conversion succeeds, `r` is among the resource keys its layers
update and `u` is among its converted collaborators-plus-assignee. -/
def issue_grants (env : JiraEnv) (cloud : String) (infra_node : Resource) (issue : Issue)
    (r : Resource) (u : User) : Prop :=
  is_issue_completed issue = false ∧
  pending_truthy (get_pending_prerequisite_issues env issue) = false ∧
  ∃ us, issue_users issue = .ok us ∧ r ∈ issue_resources cloud infra_node issue ∧ u ∈ us

/-- One iteration of the extractor's `for issue in issues:` loop: skip
completed issues, skip issues with pending Finish-to-Start prerequisites,
convert the collaborator list plus assignee, and fold the integration layers
(field `None` guarded by `or []`) into the resource map. -/
def process_issue (env : JiraEnv) (cloud : String) (infra_node : Resource)
    (m : ResourceMap) (issue : Issue) : Except String ResourceMap :=
  if is_issue_completed issue then .ok m
  else if pending_truthy (get_pending_prerequisite_issues env issue) then .ok m
  else
    match issue_users issue with
    | .error e => .error e
    | .ok users =>
      .ok ((issue.integration_layers.getD []).foldl (process_integration cloud infra_node issue users) m)

/-- The extractor loop over the sprint issues, accumulating the resource
map. -/
def access_loop (env : JiraEnv) (cloud : String) (infra_node : Resource) :
    ResourceMap → List Issue → Except String ResourceMap
  | m, [] => .ok m
  | m, issue :: rest =>
    match process_issue env cloud infra_node m issue with
    | .error e => .error e
    | .ok m2 => access_loop env cloud infra_node m2 rest

/-- The resource map computed by `get_access_for_current_sprint` for the
issues of the current sprint.  `infra_node_ip` is the configured
`CONF.get(cloud).infra_node` address; the infra node is built once as
`InfraNode(name=f"{cloud}-infra-node", ip_address=...)` (the f-string is
written as plain concatenation). -/
def get_access_resource_map (env : JiraEnv) (cloud : String) (infra_node_ip : String)
    (issues : List Issue) : Except String ResourceMap :=
  access_loop env cloud (Resource.infraNode (cloud ++ "-infra-node") infra_node_ip) [] issues

/-- `get_access_for_current_sprint` from `activities/jira.py`: the resource
map wrapped into an `AccessResult` via `AccessResult.from_map`. -/
def get_access_for_current_sprint (env : JiraEnv) (cloud : String) (infra_node_ip : String)
    (issues : List Issue) : Except String AccessResult :=
  (get_access_resource_map env cloud infra_node_ip issues).map AccessResult.from_map

/-! ## workflows/grant_access.py -/

/-- One per-cloud configuration entry (`conf/cloud.py`): friendly name, the
two launchpad groups and the infra node IP address (kept as a string). -/
structure CloudConfig where
  name : String
  infra_group : String
  user_group : String
  infra_node : String
deriving DecidableEq, Repr

/-- The workflow's collaborators as oracles: the configured cloud list and
the results the three activities return when invoked (the Temporal substrate
delivers an activity result or propagates its failure). -/
structure WorkflowEnv where
  clouds : List CloudConfig
  access_result : String → Except String AccessResult
  resolve : List User → Except String (List User)
  add_to_group : String → List User → Except String LaunchpadGroupChangeResult

/-- The `ReconcileUsers` loop of the workflow: for every resource entry (of a
copy of the map, iterated in map order) invoke `ldap.resolve_users` and
assign the resolved set back to the same key; an activity failure fails the
workflow. -/
def reconcile_loop (env : WorkflowEnv) : ResourceMap → Except String ResourceMap
  | [] => .ok []
  | (resource, users) :: rest =>
    match env.resolve users with
    | .error e => .error e
    | .ok resolved_users =>
      match reconcile_loop env rest with
      | .error e => .error e
      | .ok rest2 => .ok ((resource, resolved_users) :: rest2)

/-- The `GrantAccess` fan-out of the workflow: skip resources with an empty
user set, start one `add_users_to_group` task with the cloud's infra group
for an `InfraNode` and one with the cloud's user group for an
`OpenStackProject` (two separate `isinstance` tests, as in the source).  The
task results are gathered by `asyncio.wait`, which surfaces neither results
nor exceptions, so each task outcome is kept as its own `Except`. -/
def grant_tasks (env : WorkflowEnv) (cloud_config : CloudConfig) (m : ResourceMap) :
    List (Except String LaunchpadGroupChangeResult) :=
  m.foldl
    (fun tasks p =>
      if p.2.isEmpty then tasks
      else
        let tasks2 :=
          if p.1.isInfraNode then tasks ++ [env.add_to_group cloud_config.infra_group p.2]
          else tasks
        if p.1.isOpenStackProject then tasks2 ++ [env.add_to_group cloud_config.user_group p.2]
        else tasks2)
    []

/-- `PartnerCloudGrantAccessWorkflow.run` from `workflows/grant_access.py`,
together with the grant-task outcomes the run produced (which the source
discards after `asyncio.wait`).  The stages in order: find the cloud
configuration by `name` (raise when none matches), run the Jira extraction
activity, `to_map` its result, reconcile every user set, fan the grants out,
and return the literal pair `0, 0` (the source's `return 0, 0` under a
`TODO` note). -/
def PartnerCloudGrantAccessWorkflow.run_with_tasks (env : WorkflowEnv)
    (_project cloud : String) :
    Except String ((Nat × Nat) × List (Except String LaunchpadGroupChangeResult)) :=
  match env.clouds.find? fun c => c.name == cloud with
  | none => .error ("Unable to find configuration for cloud " ++ cloud)
  | some cloud_config =>
    match env.access_result cloud_config.name with
    | .error e => .error e
    | .ok access_result =>
      match reconcile_loop env access_result.to_map with
      | .error e => .error e
      | .ok resource_map => .ok ((0, 0), grant_tasks env cloud_config resource_map)

/-- The externally visible result of `PartnerCloudGrantAccessWorkflow.run`:
the returned `Tuple[int, int]` alone. -/
def PartnerCloudGrantAccessWorkflow.run (env : WorkflowEnv) (project cloud : String) :
    Except String (Nat × Nat) :=
  (PartnerCloudGrantAccessWorkflow.run_with_tasks env project cloud).map Prod.fst

/-- Modelled from the spec (run-level summary): the total number of users
reported as succeeded across the per-resource grant outcomes of a run; a
task that failed outright contributes no outcome. -/
def summary_succeeded_count (tasks : List (Except String LaunchpadGroupChangeResult)) : Nat :=
  tasks.foldl
    (fun n t => match t with | .ok r => n + r.success.length | .error _ => n) 0

/-- Modelled from the spec (run-level summary): the total number of users
reported as failed across the per-resource grant outcomes of a run. -/
def summary_failed_count (tasks : List (Except String LaunchpadGroupChangeResult)) : Nat :=
  tasks.foldl
    (fun n t => match t with | .ok r => n + r.failed.length | .error _ => n) 0

/-! ## Concrete data used by the theorems below -/

/-- All entries an `add_users_to_group` call recorded, in recording order:
the succeeded users followed by the users of the failure pairs. -/
def result_entries (r : LaunchpadGroupChangeResult) : List User :=
  r.success ++ r.failed.map Prod.fst

/-- A user known only by name, without email or launchpad id. -/
def aliceNoEmail : User := { name := "alice" }

/-- A user with the same name as `aliceNoEmail` but with an email address. -/
def aliceWithEmail : User := { name := "alice", email := some "alice@example.com" }

/-- A user with an email address but no launchpad id (not fully resolved). -/
def aliceUser : User := { name := "alice", email := some "alice@example.com" }

/-- A user with a launchpad id but no email address. -/
def bobUser : User := { name := "bob", launchpad_id := some "bob-lp" }

/-- A directory entry whose `launchpadId` matches `bobUser` but whose `cn`
and `mail` do not. -/
def bobEntry : LdapEntry :=
  { cn := some "robert", launchpadId := some "bob-lp", mail := some "robert@example.com" }

/-- A collaborator on the unassigned ticket. -/
def charlieJira : JiraUser := { displayName := "Charlie", emailAddress := some "charlie@example.com" }

/-- `convert_user charlieJira`. -/
def charlieUser : User := { name := "Charlie", email := some "charlie@example.com" }

/-- An actionable ticket (status `In Progress`, no links) with one linked
collaborator and a null assignee. -/
def unassignedIssue : Issue :=
  { key := "PC-7"
    status_name := "In Progress"
    integration_layers := some ["Infrastructure"]
    collaborators := some [charlieJira]
    assignee := none }

/-- A Jira oracle that resolves no issue keys. -/
def emptyJiraEnv : JiraEnv := { issue_by_key := fun _ => none }

/-- A fully resolved user granted successfully in the concrete workflow
run. -/
def daveUser : User :=
  { name := "dave", email := some "dave@example.com", launchpad_id := some "dave-lp" }

/-- A Launchpad oracle where `daveUser` is a valid Canonical employee not yet
in any target group and `addMember` succeeds. -/
def c1LaunchpadEnv : LaunchpadEnv :=
  { groups := ["pc1-infra", "canonical"]
    people := fun s =>
      if s = "dave-lp" then
        some { is_valid := true, memberships_details := [{ team := "canonical", status := "Approved" }] }
      else none
    addMember_raises := fun _ _ => false }

/-- The extraction result of the concrete workflow run: one infra-node
resource with `daveUser` needing access. -/
def c1AccessResult : AccessResult :=
  AccessResult.from_map [(Resource.infraNode "pc1-infra-node" "10.0.0.1", [daveUser])]

/-- The workflow environment of the concrete run: one configured cloud
`pc1`, the extraction result above, an identity reconciliation, and grants
served by `add_users_to_group` over `c1LaunchpadEnv`. -/
def c1WorkflowEnv : WorkflowEnv :=
  { clouds := [{ name := "pc1", infra_group := "pc1-infra", user_group := "pc1-users",
                 infra_node := "10.0.0.1" }]
    access_result := fun _ => .ok c1AccessResult
    resolve := fun users => .ok users
    add_to_group := add_users_to_group c1LaunchpadEnv }

/-- The grant-task outcomes of the concrete run: one outcome with one
succeeded user and no failures. -/
def c1Tasks : List (Except String LaunchpadGroupChangeResult) :=
  [.ok { group := "pc1-infra", success := [daveUser], failed := [] }]

/-- First user of the 3-user grant batch: a valid Canonical employee. -/
def wendyUser : User :=
  { name := "wendy", email := some "wendy@example.com", launchpad_id := some "wendy-lp" }

/-- Second user of the 3-user grant batch: no launchpad id. -/
def walterUser : User := { name := "walter", email := some "walter@example.com" }

/-- Third user of the 3-user grant batch: a valid Canonical employee. -/
def wilmaUser : User :=
  { name := "wilma", email := some "wilma@example.com", launchpad_id := some "wilma-lp" }

/-- A Launchpad oracle where `wendyUser` and `wilmaUser` are valid Canonical
employees and `addMember` succeeds. -/
def c5LaunchpadEnv : LaunchpadEnv :=
  { groups := ["pc-group", "canonical"]
    people := fun s =>
      if s = "wendy-lp" || s = "wilma-lp" then
        some { is_valid := true, memberships_details := [{ team := "canonical", status := "Approved" }] }
      else none
    addMember_raises := fun _ _ => false }

/-- First of two actionable Infrastructure tickets for the same cloud. -/
def infraIssueA : Issue :=
  { key := "PC-1"
    status_name := "In Progress"
    integration_layers := some ["Infrastructure"]
    collaborators := some [{ displayName := "ann", emailAddress := some "ann@example.com" }]
    assignee := some { displayName := "bob", emailAddress := some "bob@example.com" } }

/-- Second of two actionable Infrastructure tickets for the same cloud. -/
def infraIssueB : Issue :=
  { key := "PC-2"
    status_name := "In Progress"
    integration_layers := some ["Infrastructure"]
    collaborators := some [{ displayName := "cat", emailAddress := some "cat@example.com" }]
    assignee := some { displayName := "bob", emailAddress := some "bob@example.com" } }

/-- A fully resolved one-user input set for the reconciler fast path. -/
def resolvedAnn : User :=
  { name := "ann", email := some "ann@example.com", launchpad_id := some "ann-lp" }

/-! ## Helper lemmas -/

/-- Pydantic `__eq__` on `User` agrees with structural equality. -/
theorem userEq_iff (a b : User) : userEq a b = true ↔ a = b := by
  cases a; cases b
  simp [userEq, User.mk.injEq, and_assoc]

/-- Python set membership over `User`s is decided by full pydantic equality:
the hash-bucket conjunct never rules out an equal element, because equal
values have equal names. -/
theorem pySetContains_iff (s : List User) (u : User) :
    pySetContains s u = true ↔ u ∈ s := by
  simp only [pySetContains, List.any_eq_true]
  constructor
  · rintro ⟨v, hv, hcond⟩
    rcases Bool.and_eq_true_iff.mp hcond with ⟨-, heq⟩
    rcases (userEq_iff v u).mp heq with rfl
    exact hv
  · intro hv
    exact ⟨u, hv, by simp [userHashKey, userEq_iff]⟩

/-- Membership after `set.add`. -/
theorem mem_pySetAdd {s : List User} {v u : User} :
    u ∈ pySetAdd s v ↔ u ∈ s ∨ u = v := by
  unfold pySetAdd
  by_cases h : pySetContains s v = true
  · have hv : v ∈ s := (pySetContains_iff s v).mp h
    simp only [h, if_true]
    constructor
    · exact Or.inl
    · rintro (hu | rfl)
      · exact hu
      · exact hv
  · simp [h, List.mem_append]

/-- Membership after `set.update`. -/
theorem mem_pySetUpdate {l : List User} : ∀ {s : List User} {u : User},
    u ∈ pySetUpdate s l ↔ u ∈ s ∨ u ∈ l := by
  induction l with
  | nil => simp [pySetUpdate]
  | cons v rest ih =>
    intro s u
    show u ∈ pySetUpdate (pySetAdd s v) rest ↔ _
    rw [ih, mem_pySetAdd]
    simp [or_assoc, List.mem_cons]

/-- Recording one user appends exactly that user to the combined entry
list, up to moving it past the failure entries. -/
theorem result_entries_process_user (env : LaunchpadEnv) (group : String)
    (r : LaunchpadGroupChangeResult) (u : User) :
    (result_entries (process_user env group r u)).Perm (result_entries r ++ [u]) := by
  unfold process_user
  cases classify_user env group u with
  | success =>
    simp only [result_entries, LaunchpadGroupChangeResult.add_success, List.append_assoc]
    exact List.Perm.append_left _ List.perm_append_comm
  | failure reason =>
    simp only [result_entries, LaunchpadGroupChangeResult.add_failure, List.map_append,
      List.map_cons, List.map_nil, List.append_assoc]
    exact List.Perm.refl _

/-- The grantor loop records exactly one entry per input user: the combined
entry list of the final result is a permutation of the initial entries
followed by the processed users. -/
theorem result_entries_foldl (env : LaunchpadEnv) (group : String) :
    ∀ (users : List User) (r : LaunchpadGroupChangeResult),
      (result_entries (users.foldl (process_user env group) r)).Perm
        (result_entries r ++ users) := by
  intro users
  induction users with
  | nil => intro r; simp
  | cons u rest ih =>
    intro r
    have h1 : result_entries ((u :: rest).foldl (process_user env group) r)
        = result_entries (rest.foldl (process_user env group) (process_user env group r u)) := rfl
    rw [h1]
    refine (ih (process_user env group r u)).trans ?_
    refine ((result_entries_process_user env group r u).append_right rest).trans ?_
    simp only [List.append_assoc, List.singleton_append]
    exact List.Perm.refl _

/-- If some user in the remaining list has no match in the result maps, the
resolve loop raises (it never silently skips the user). -/
theorem resolve_users_loop_error (rm : ResultsMap) :
    ∀ (users acc : List User), (∃ u ∈ users, lookup_entry rm u = none) →
      ∃ msg, resolve_users_loop rm acc users = .error msg := by
  intro users
  induction users with
  | nil => rintro acc ⟨u, hu, -⟩; cases hu
  | cons v rest ih =>
    rintro acc ⟨u, hu, hnone⟩
    cases hv : lookup_entry rm v with
    | none =>
      refine ⟨attribute_error_cn, ?_⟩
      simp [resolve_users_loop, hv]
    | some entry =>
      cases hfe : user_from_entry entry with
      | error e =>
        refine ⟨e, ?_⟩
        simp [resolve_users_loop, hv, hfe]
      | ok nu =>
        rcases List.mem_cons.mp hu with rfl | hrest
        · rw [hv] at hnone; cases hnone
        · obtain ⟨msg, hmsg⟩ := ih (pySetAdd acc nu) ⟨u, hrest, hnone⟩
          refine ⟨msg, ?_⟩
          simp [resolve_users_loop, hv, hfe, hmsg]

/-- `process_integration` written through `integration_target`. -/
theorem process_integration_eq (cloud : String) (infra_node : Resource) (issue : Issue)
    (users : List User) (m : ResourceMap) (integration : String) :
    process_integration cloud infra_node issue users m integration =
      match integration_target cloud infra_node issue integration with
      | some r => rmapUpdate m r users
      | none => m := by
  by_cases h1 : (integration == "Infrastructure") = true
  · simp [process_integration, integration_target, h1]
  · by_cases h2 : (integration == "Platform") = true
    · simp [process_integration, integration_target, h1, h2]
    · simp [process_integration, integration_target, h1, h2]

/-- Dict lookup on a cons cell. -/
theorem rmapGet_cons (k : Resource) (v : List User) (t : ResourceMap) (r : Resource) :
    rmapGet ((k, v) :: t) r = if k = r then some v else rmapGet t r := by
  by_cases h : k = r <;> simp [rmapGet, List.find?, h]

/-- After `rmapUpdate m r users`, the entry at `r` is the old set (empty when
absent) unioned with `users`. -/
theorem rmapGet_rmapUpdate_self (r : Resource) (users : List User) :
    ∀ m : ResourceMap,
      rmapGet (rmapUpdate m r users) r = some (pySetUpdate ((rmapGet m r).getD []) users) := by
  intro m
  induction m with
  | nil => simp [rmapUpdate, rmapGet_cons, rmapGet]
  | cons p rest ih =>
    obtain ⟨k, v⟩ := p
    by_cases hk : k = r
    · subst hk
      simp [rmapUpdate, rmapGet_cons]
    · simp [rmapUpdate, hk, rmapGet_cons, ih]

/-- `rmapUpdate` leaves every other key unchanged. -/
theorem rmapGet_rmapUpdate_other (r r2 : Resource) (users : List User) (hne : r2 ≠ r) :
    ∀ m : ResourceMap, rmapGet (rmapUpdate m r users) r2 = rmapGet m r2 := by
  have hne2 : ¬ r = r2 := fun h => hne h.symm
  intro m
  induction m with
  | nil =>
    simp [rmapUpdate, rmapGet_cons, rmapGet, hne2]
  | cons p rest ih =>
    obtain ⟨k, v⟩ := p
    by_cases hk : k = r
    · subst hk
      simp [rmapUpdate, rmapGet_cons, hne2]
    · simp [rmapUpdate, hk, rmapGet_cons, ih]

/-- The keys after `rmapUpdate` are the old keys, possibly with `r`
appended. -/
theorem mem_keys_rmapUpdate (r r2 : Resource) (users : List User) :
    ∀ m : ResourceMap,
      r2 ∈ (rmapUpdate m r users).map Prod.fst ↔ r2 ∈ m.map Prod.fst ∨ r2 = r := by
  intro m
  induction m with
  | nil => simp [rmapUpdate]
  | cons p rest ih =>
    obtain ⟨k, v⟩ := p
    by_cases hk : k = r
    · subst hk
      simp [rmapUpdate]
      tauto
    · simp [rmapUpdate, hk, ih]
      tauto

/-- `rmapUpdate` keeps the keys of the map without duplicates. -/
theorem nodup_keys_rmapUpdate (r : Resource) (users : List User) :
    ∀ m : ResourceMap, (m.map Prod.fst).Nodup → ((rmapUpdate m r users).map Prod.fst).Nodup := by
  intro m
  induction m with
  | nil => intro _; simp [rmapUpdate]
  | cons p rest ih =>
    obtain ⟨k, v⟩ := p
    intro hnd
    rw [List.map_cons, List.nodup_cons] at hnd
    by_cases hk : k = r
    · subst hk
      simpa [rmapUpdate, List.nodup_cons] using hnd
    · rw [show rmapUpdate ((k, v) :: rest) r users = (k, v) :: rmapUpdate rest r users by
        simp [rmapUpdate, hk]]
      rw [List.map_cons, List.nodup_cons]
      refine ⟨?_, ih hnd.2⟩
      rw [mem_keys_rmapUpdate]
      rintro (hmem | rfl)
      · exact hnd.1 hmem
      · exact hk rfl

/-- Membership in an entry after the integration-layer fold: a user is in
the entry for `r` exactly when it already was, or `r` is one of the keys the
folded layers target and the user is among the issue's users. -/
theorem mem_integration_foldl (cloud : String) (infra_node : Resource) (issue : Issue)
    (users : List User) :
    ∀ (integrations : List String) (m : ResourceMap) (r : Resource) (u : User),
      (∃ s, rmapGet (integrations.foldl (process_integration cloud infra_node issue users) m) r
          = some s ∧ u ∈ s)
        ↔ ((∃ s, rmapGet m r = some s ∧ u ∈ s) ∨
            (r ∈ integrations.filterMap (integration_target cloud infra_node issue) ∧ u ∈ users)) := by
  intro integrations
  induction integrations with
  | nil => simp
  | cons integration rest ih =>
    intro m r u
    rw [List.foldl_cons, ih, process_integration_eq]
    cases htgt : integration_target cloud infra_node issue integration with
    | none => simp [htgt]
    | some r1 =>
      simp only [htgt, List.filterMap_cons, List.mem_cons]
      by_cases hr : r = r1
      · subst hr
        simp only [rmapGet_rmapUpdate_self, Option.some.injEq, exists_eq_left', mem_pySetUpdate]
        cases hget : rmapGet m r with
        | none => simp [hget]
        | some s0 =>
          simp only [hget, Option.getD_some, Option.some.injEq, exists_eq_left',
            eq_self_iff_true, true_or, true_and]
          tauto
      · rw [rmapGet_rmapUpdate_other r1 r users hr]
        simp only [hr, false_or]

/-- The integration-layer fold keeps the keys without duplicates. -/
theorem nodup_keys_integration_foldl (cloud : String) (infra_node : Resource) (issue : Issue)
    (users : List User) :
    ∀ (integrations : List String) (m : ResourceMap), (m.map Prod.fst).Nodup →
      ((integrations.foldl (process_integration cloud infra_node issue users) m).map Prod.fst).Nodup := by
  intro integrations
  induction integrations with
  | nil => intro m h; simpa using h
  | cons integration rest ih =>
    intro m h
    rw [List.foldl_cons]
    refine ih _ ?_
    rw [process_integration_eq]
    cases integration_target cloud infra_node issue integration with
    | none => exact h
    | some r1 => exact nodup_keys_rmapUpdate r1 users m h

/-- Membership in an entry after one issue is processed: unchanged for a
skipped issue, and otherwise extended exactly by the issue's contribution. -/
theorem mem_process_issue (env : JiraEnv) (cloud : String) (infra_node : Resource)
    (m m2 : ResourceMap) (issue : Issue)
    (h : process_issue env cloud infra_node m issue = .ok m2) (r : Resource) (u : User) :
    (∃ s, rmapGet m2 r = some s ∧ u ∈ s) ↔
      ((∃ s, rmapGet m r = some s ∧ u ∈ s) ∨ issue_grants env cloud infra_node issue r u) := by
  unfold process_issue at h
  by_cases hcomp : is_issue_completed issue = true
  · rw [if_pos hcomp] at h
    rcases Except.ok.inj h with rfl
    simp [issue_grants, hcomp]
  · rw [if_neg hcomp] at h
    rw [Bool.not_eq_true] at hcomp
    by_cases hpend : pending_truthy (get_pending_prerequisite_issues env issue) = true
    · rw [if_pos hpend] at h
      rcases Except.ok.inj h with rfl
      simp [issue_grants, hpend]
    · rw [if_neg hpend] at h
      rw [Bool.not_eq_true] at hpend
      cases hus : issue_users issue with
      | error e => rw [hus] at h; cases h
      | ok users =>
        rw [hus] at h
        rcases Except.ok.inj h with rfl
        rw [mem_integration_foldl]
        unfold issue_grants issue_resources
        constructor
        · rintro (hold | ⟨hmem, hu⟩)
          · exact Or.inl hold
          · exact Or.inr ⟨hcomp, hpend, users, hus, hmem, hu⟩
        · rintro (hold | ⟨-, -, us2, hus2, hmem, hu⟩)
          · exact Or.inl hold
          · rcases Except.ok.inj (hus.symm.trans hus2) with rfl
            exact Or.inr ⟨hmem, hu⟩

/-- Processing one issue keeps the keys without duplicates. -/
theorem nodup_keys_process_issue (env : JiraEnv) (cloud : String) (infra_node : Resource)
    (m m2 : ResourceMap) (issue : Issue)
    (h : process_issue env cloud infra_node m issue = .ok m2)
    (hnd : (m.map Prod.fst).Nodup) : (m2.map Prod.fst).Nodup := by
  unfold process_issue at h
  by_cases hcomp : is_issue_completed issue = true
  · rw [if_pos hcomp] at h; rcases Except.ok.inj h with rfl; exact hnd
  · rw [if_neg hcomp] at h
    by_cases hpend : pending_truthy (get_pending_prerequisite_issues env issue) = true
    · rw [if_pos hpend] at h; rcases Except.ok.inj h with rfl; exact hnd
    · rw [if_neg hpend] at h
      cases hus : issue_users issue with
      | error e => rw [hus] at h; cases h
      | ok users =>
        rw [hus] at h
        rcases Except.ok.inj h with rfl
        exact nodup_keys_integration_foldl cloud infra_node issue users _ m hnd

/-- Membership in an entry of the final map of the extractor loop: the user
was already in the starting map's entry, or some processed issue contributed
it for that key. -/
theorem mem_access_loop (env : JiraEnv) (cloud : String) (infra_node : Resource) :
    ∀ (issues : List Issue) (m m2 : ResourceMap),
      access_loop env cloud infra_node m issues = .ok m2 →
      ∀ (r : Resource) (u : User),
        (∃ s, rmapGet m2 r = some s ∧ u ∈ s) ↔
          ((∃ s, rmapGet m r = some s ∧ u ∈ s) ∨
            ∃ i ∈ issues, issue_grants env cloud infra_node i r u) := by
  intro issues
  induction issues with
  | nil =>
    intro m m2 h r u
    rcases Except.ok.inj h with rfl
    simp
  | cons issue rest ih =>
    intro m m2 h r u
    unfold access_loop at h
    cases hstep : process_issue env cloud infra_node m issue with
    | error e => rw [hstep] at h; cases h
    | ok mid =>
      rw [hstep] at h
      rw [ih mid m2 h r u, mem_process_issue env cloud infra_node m mid issue hstep r u]
      constructor
      · rintro ((hold | hgrant) | ⟨i, hi, hg⟩)
        · exact Or.inl hold
        · exact Or.inr ⟨issue, List.mem_cons_self _ _, hgrant⟩
        · exact Or.inr ⟨i, List.mem_cons_of_mem _ hi, hg⟩
      · rintro (hold | ⟨i, hi, hg⟩)
        · exact Or.inl (Or.inl hold)
        · rcases List.mem_cons.mp hi with rfl | hi2
          · exact Or.inl (Or.inr hg)
          · exact Or.inr ⟨i, hi2, hg⟩

/-- The extractor loop keeps the keys without duplicates. -/
theorem nodup_keys_access_loop (env : JiraEnv) (cloud : String) (infra_node : Resource) :
    ∀ (issues : List Issue) (m m2 : ResourceMap),
      access_loop env cloud infra_node m issues = .ok m2 →
      (m.map Prod.fst).Nodup → (m2.map Prod.fst).Nodup := by
  intro issues
  induction issues with
  | nil =>
    intro m m2 h hnd
    rcases Except.ok.inj h with rfl
    exact hnd
  | cons issue rest ih =>
    intro m m2 h hnd
    unfold access_loop at h
    cases hstep : process_issue env cloud infra_node m issue with
    | error e => rw [hstep] at h; cases h
    | ok mid =>
      rw [hstep] at h
      exact ih mid m2 h (nodup_keys_process_issue env cloud infra_node m mid issue hstep hnd)

/-! ## Claim theorems -/

/-- C1: the grant-access workflow is claimed to return a run-level summary
whose succeeded/failed counts equal the totals reported across the
per-resource grant outcomes.  Evaluating the embedded
`PartnerCloudGrantAccessWorkflow.run` on a run that completes without a
fatal error and whose single grant outcome reports one succeeded user: the
run returns the literal pair `(0, 0)` (the source's `return 0, 0`), which
differs from the outcome totals `(1, 0)`. -/
theorem grant_access_summary_ignores_grant_outcomes :
    PartnerCloudGrantAccessWorkflow.run_with_tasks c1WorkflowEnv "PROJ" "pc1" =
      .ok ((0, 0), c1Tasks) ∧
    PartnerCloudGrantAccessWorkflow.run c1WorkflowEnv "PROJ" "pc1" = .ok (0, 0) ∧
    summary_succeeded_count c1Tasks = 1 ∧
    summary_failed_count c1Tasks = 0 ∧
    ((0, 0) : Nat × Nat) ≠ (summary_succeeded_count c1Tasks, summary_failed_count c1Tasks) :=
  ⟨rfl, rfl, rfl, rfl, by decide⟩

/-- C2: the claim says a user is looked up with the same attribute priority
used to build its filter clause.  For `bobUser` (launchpad id but no email)
the filter clause and the identity attribute are `launchpadId`, and the
result set contains a record under that launchpad id; yet the coded lookup
(the walrus-bound Boolean `attr`) misses it — it falls through to the `cn`
index — and the whole resolution raises instead of replacing the user with
the matched record. -/
theorem resolve_users_lookup_skips_launchpad_attribute :
    get_identity_attribute bobUser = ATTR_LAUNCHPAD_ID ∧
    get_filter_parameter bobUser = "(launchpadId=bob-lp)" ∧
    attrMapGet (build_results_map [bobEntry]).lpMap bobUser.launchpad_id = some bobEntry ∧
    lookup_entry (build_results_map [bobEntry]) bobUser = none ∧
    resolve_users [bobEntry] [bobUser] =
      { queried := true, result := .error attribute_error_cn } :=
  ⟨rfl, rfl, rfl, rfl, rfl⟩

/-- C3 counterexample: two user values with equal names but different email
fields share the hash bucket yet are NOT identified as the same set element
— a one-element set containing the first does not contain the second, and
adding both yields a two-element set. -/
theorem user_set_membership_not_by_name_alone :
    aliceNoEmail.name = aliceWithEmail.name ∧
    userHashKey aliceNoEmail = userHashKey aliceWithEmail ∧
    pySetContains [aliceNoEmail] aliceWithEmail = false ∧
    (pySetOfList [aliceNoEmail, aliceWithEmail]).length = 2 :=
  ⟨rfl, rfl, rfl, rfl⟩

/-- C3 amended: name equality only guarantees the same hash bucket
(`Object.__hash__` hashes `name`); set membership itself is decided by
pydantic equality over all fields, so two user values are the same set
element exactly when name, email and launchpad id all agree. -/
theorem user_set_membership_by_full_field_equality (u v : User) :
    (u.name = v.name → userHashKey u = userHashKey v) ∧
    (pySetContains [v] u = true ↔ u = v) := by
  constructor
  · intro h
    simp [userHashKey, h]
  · rw [pySetContains_iff]
    simp

/-- C3 amended, evaluated at the two concrete users of the counterexample by
applying the amended theorem. -/
theorem user_set_membership_by_full_field_equality_witness :
    (aliceNoEmail.name = aliceWithEmail.name →
      userHashKey aliceNoEmail = userHashKey aliceWithEmail) ∧
    (pySetContains [aliceWithEmail] aliceNoEmail = true ↔ aliceNoEmail = aliceWithEmail) :=
  user_set_membership_by_full_field_equality aliceNoEmail aliceWithEmail

/-- C4: the claim says a null assignee is dropped without error and the
collaborator set is the linked collaborators alone.  Evaluating the embedded
extractor on an actionable ticket with one linked collaborator and a null
assignee: converting the appended `None` assignee raises `AttributeError`
and the whole extraction fails, instead of producing the collaborator set
`[charlieUser]`. -/
theorem extractor_null_assignee_raises :
    issue_users unassignedIssue = .error attribute_error_displayName ∧
    get_access_for_current_sprint emptyJiraEnv "pc1" "10.0.0.1" [unassignedIssue] =
      .error attribute_error_displayName ∧
    (unassignedIssue.collaborators.getD []).map convert_user = [charlieUser] :=
  ⟨rfl, rfl, rfl⟩

/-- C5 counterexample: for the 3-user batch in which only the second user
lacks a launchpad id, the single failure entry carries the code's reason
string `"no launchpad id"`, which is not the claimed literal
`"no external id"`. -/
theorem add_users_to_group_reason_string_counterexample :
    add_users_to_group c5LaunchpadEnv "pc-group" [wendyUser, walterUser, wilmaUser] =
      .ok { group := "pc-group", success := [wendyUser, wilmaUser],
            failed := [(walterUser, "no launchpad id")] } ∧
    "no launchpad id" ≠ "no external id" :=
  ⟨rfl, by decide⟩

/-- C5 (amended): the grantor processes each user of a batch independently —
the returned outcome records exactly one entry per input user, and for a
3-user batch where only user 2 lacks a launchpad id (users 1 and 3 passing
every other check) the outcome is exactly one failure entry
`(user 2, "no launchpad id")` plus success entries for users 1 and 3. -/
theorem add_users_to_group_per_user_isolation (env : LaunchpadEnv) (group : String)
    (u1 u2 u3 : User)
    (hg : env.groups.contains group = true)
    (hc : env.groups.contains "canonical" = true)
    (h2 : launchpad_id_falsy u2.launchpad_id = true)
    (h1 : classify_user env group u1 = .success)
    (h3 : classify_user env group u3 = .success) :
    add_users_to_group env group [u1, u2, u3] =
      .ok { group := group, success := [u1, u3], failed := [(u2, "no launchpad id")] } ∧
    ∀ users : List User, ∃ r, add_users_to_group env group users = .ok r ∧
      (result_entries r).Perm users := by
  have hu2 : classify_user env group u2 = .failure "no launchpad id" := by
    simp [classify_user, h2]
  have hg2 : group ∈ env.groups := by simpa using hg
  have hc2 : "canonical" ∈ env.groups := by simpa using hc
  constructor
  · simp [add_users_to_group, hg2, hc2, List.foldl, process_user, h1, h3, hu2,
      LaunchpadGroupChangeResult.add_success, LaunchpadGroupChangeResult.add_failure]
  · intro users
    refine ⟨users.foldl (process_user env group) { group := group }, ?_, ?_⟩
    · simp [add_users_to_group, hg2, hc2]
    · simpa [result_entries] using
        result_entries_foldl env group users { group := group }

/-- C5 amended, evaluated on the concrete 3-user batch over
`c5LaunchpadEnv` by applying the isolation theorem. -/
theorem add_users_to_group_per_user_isolation_witness :
    (c5LaunchpadEnv.groups.contains "pc-group" = true ∧
     c5LaunchpadEnv.groups.contains "canonical" = true ∧
     launchpad_id_falsy walterUser.launchpad_id = true ∧
     classify_user c5LaunchpadEnv "pc-group" wendyUser = .success ∧
     classify_user c5LaunchpadEnv "pc-group" wilmaUser = .success) ∧
    (add_users_to_group c5LaunchpadEnv "pc-group" [wendyUser, walterUser, wilmaUser] =
        .ok { group := "pc-group", success := [wendyUser, wilmaUser],
              failed := [(walterUser, "no launchpad id")] } ∧
     ∀ users : List User, ∃ r, add_users_to_group c5LaunchpadEnv "pc-group" users = .ok r ∧
       (result_entries r).Perm users) :=
  ⟨⟨rfl, rfl, rfl, rfl, rfl⟩,
   add_users_to_group_per_user_isolation c5LaunchpadEnv "pc-group" wendyUser walterUser wilmaUser
     rfl rfl rfl rfl rfl⟩

/-- C6: in every extraction run, the output map has at most one entry per
resource key (the keys are without duplicates), and a user is in the entry
for a key exactly when some ticket of the run contributes it for that key.
In particular, when two tickets both contribute access requirements for the
same resource (e.g. two actionable tickets both carrying the Infrastructure
layer for the same cloud), the single entry's user set is the union of both
tickets' collaborator sets, never the second ticket's set overwriting the
first. -/
theorem extractor_same_resource_union (env : JiraEnv) (cloud ip : String)
    (issues : List Issue) (m : ResourceMap)
    (hok : get_access_resource_map env cloud ip issues = .ok m) :
    (m.map Prod.fst).Nodup ∧
    ∀ (r : Resource) (u : User),
      (∃ s, rmapGet m r = some s ∧ u ∈ s) ↔
        ∃ i ∈ issues,
          issue_grants env cloud (Resource.infraNode (cloud ++ "-infra-node") ip) i r u := by
  unfold get_access_resource_map at hok
  constructor
  · exact nodup_keys_access_loop env cloud _ issues [] m hok (by simp)
  · intro r u
    rw [mem_access_loop env cloud _ issues [] m hok r u]
    simp [rmapGet]

/-- C6, evaluated on a run of two concrete Infrastructure tickets for cloud
`pc9` by applying the union theorem: the computed map has one entry, holding
the deduplicated union of both tickets' collaborator sets. -/
theorem extractor_same_resource_union_witness :
    get_access_resource_map emptyJiraEnv "pc9" "10.0.0.9" [infraIssueA, infraIssueB] =
      .ok [(Resource.infraNode "pc9-infra-node" "10.0.0.9",
            [{ name := "ann", email := some "ann@example.com" },
             { name := "bob", email := some "bob@example.com" },
             { name := "cat", email := some "cat@example.com" }])] ∧
    (([(Resource.infraNode "pc9-infra-node" "10.0.0.9",
        ([{ name := "ann", email := some "ann@example.com" },
          { name := "bob", email := some "bob@example.com" },
          { name := "cat", email := some "cat@example.com" }] : List User))] :
        ResourceMap).map Prod.fst).Nodup ∧
    ∀ (r : Resource) (u : User),
      (∃ s, rmapGet [(Resource.infraNode "pc9-infra-node" "10.0.0.9",
          [{ name := "ann", email := some "ann@example.com" },
           { name := "bob", email := some "bob@example.com" },
           { name := "cat", email := some "cat@example.com" }])] r = some s ∧ u ∈ s) ↔
        ∃ i ∈ [infraIssueA, infraIssueB],
          issue_grants emptyJiraEnv "pc9" (Resource.infraNode "pc9-infra-node" "10.0.0.9") i r u := by
  have h := extractor_same_resource_union emptyJiraEnv "pc9" "10.0.0.9"
    [infraIssueA, infraIssueB]
    [(Resource.infraNode "pc9-infra-node" "10.0.0.9",
      [{ name := "ann", email := some "ann@example.com" },
       { name := "bob", email := some "bob@example.com" },
       { name := "cat", email := some "cat@example.com" }])] rfl
  exact ⟨rfl, h.1, h.2⟩

/-- C7: when every input user is already fully resolved the reconciler
returns the input set unchanged and issues no directory query, for every
possible state of the directory. -/
theorem resolve_users_fast_path_transparent (search_results : List LdapEntry)
    (users : List User)
    (hall : users.all is_fully_resolved = true)
    (hset : pySetOfList users = users) :
    resolve_users search_results users = { queried := false, result := .ok users } := by
  cases users with
  | nil => simp [resolve_users]
  | cons v rest => simp [resolve_users, hall, hset]

/-- C7, evaluated on a one-element fully resolved input set by applying the
fast-path theorem. -/
theorem resolve_users_fast_path_transparent_witness :
    ([resolvedAnn].all is_fully_resolved = true ∧ pySetOfList [resolvedAnn] = [resolvedAnn]) ∧
    resolve_users [] [resolvedAnn] = { queried := false, result := .ok [resolvedAnn] } :=
  ⟨⟨rfl, rfl⟩, resolve_users_fast_path_transparent [] [resolvedAnn] rfl rfl⟩

/-- C8: when the input contains a not-fully-resolved user and the single
combined directory query returns zero records, the reconciler raises the
no-results exception (a hard failure) rather than returning an empty or
partial set. -/
theorem resolve_users_empty_result_hard_failure (users : List User)
    (hne : users ≠ [])
    (hunres : users.all is_fully_resolved = false) :
    resolve_users [] users =
      { queried := true, result := .error (no_results_message users) } := by
  cases users with
  | nil => cases hne rfl
  | cons v rest => simp [resolve_users, hunres]

/-- C8, evaluated on a one-element input known only by name, by applying the
hard-failure theorem. -/
theorem resolve_users_empty_result_hard_failure_witness :
    (([aliceNoEmail] : List User) ≠ [] ∧ [aliceNoEmail].all is_fully_resolved = false) ∧
    resolve_users [] [aliceNoEmail] =
      { queried := true, result := .error (no_results_message [aliceNoEmail]) } :=
  ⟨⟨List.cons_ne_nil _ _, rfl⟩,
   resolve_users_empty_result_hard_failure [aliceNoEmail] (List.cons_ne_nil _ _) rfl⟩

/-- C9 counterexample: with a non-empty combined result set that contains no
record matching the input user, the reconciler FAILS — the resolution
returns the uncaught `AttributeError` instead of completing with the user
silently dropped, contradicting the claim that it does not fail. -/
theorem resolve_users_unmatched_user_counterexample :
    ([bobEntry] : List LdapEntry) ≠ [] ∧
    (resolve_users [bobEntry] [aliceUser]).queried = true ∧
    (resolve_users [bobEntry] [aliceUser]).result = .error attribute_error_cn :=
  ⟨List.cons_ne_nil _ _, rfl, rfl⟩

/-- C9 amended: a per-user non-match within a non-empty combined result set
is not surfaced as a named per-user failure, but it does abort the whole
resolution: the code dereferences the `None` lookup result and the
resolution returns an error rather than a set with the user dropped. -/
theorem resolve_users_unmatched_user_aborts (search_results : List LdapEntry)
    (users : List User)
    (hne : users ≠ [])
    (hunres : users.all is_fully_resolved = false)
    (hres : search_results.isEmpty = false)
    (hmiss : ∃ u ∈ users, lookup_entry (build_results_map search_results) u = none) :
    (resolve_users search_results users).queried = true ∧
    ∃ msg, (resolve_users search_results users).result = .error msg := by
  cases users with
  | nil => cases hne rfl
  | cons v rest =>
    constructor
    · simp [resolve_users, hunres]
    · obtain ⟨msg, hmsg⟩ :=
        resolve_users_loop_error (build_results_map search_results) (v :: rest) [] hmiss
      exact ⟨msg, by simp [resolve_users, hunres, hres, hmsg]⟩

/-- C9 amended, evaluated on the concrete unmatched user and non-empty
result set by applying the abort theorem. -/
theorem resolve_users_unmatched_user_aborts_witness :
    (([aliceUser] : List User) ≠ [] ∧
     [aliceUser].all is_fully_resolved = false ∧
     ([bobEntry] : List LdapEntry).isEmpty = false ∧
     ∃ u ∈ ([aliceUser] : List User),
       lookup_entry (build_results_map [bobEntry]) u = none) ∧
    ((resolve_users [bobEntry] [aliceUser]).queried = true ∧
     ∃ msg, (resolve_users [bobEntry] [aliceUser]).result = .error msg) :=
  ⟨⟨List.cons_ne_nil _ _, rfl, rfl, ⟨aliceUser, List.mem_singleton.mpr rfl, rfl⟩⟩,
   resolve_users_unmatched_user_aborts [bobEntry] [aliceUser] (List.cons_ne_nil _ _) rfl rfl
     ⟨aliceUser, List.mem_singleton.mpr rfl, rfl⟩⟩

/-- C10: `has_failures` returns `True` exactly when the recorded failure
list is empty (and `False` whenever at least one failure was recorded) —
the inverse of what its name suggests, as the source computes
`len(self.failed) == 0`. -/
theorem has_failures_true_iff_no_failures (r : LaunchpadGroupChangeResult) :
    r.has_failures = true ↔ r.failed = [] := by
  simp [LaunchpadGroupChangeResult.has_failures, List.length_eq_zero]

/-- C10, evaluated at a result carrying one recorded failure by applying the
inversion theorem. -/
theorem has_failures_true_iff_no_failures_witness :
    ({ group := "g", failed := [(aliceNoEmail, "no launchpad id")] } :
        LaunchpadGroupChangeResult).has_failures = true ↔
      ({ group := "g", failed := [(aliceNoEmail, "no launchpad id")] } :
        LaunchpadGroupChangeResult).failed = [] :=
  has_failures_true_iff_no_failures _
